import Mathlib

/-!
Verification of the MultiAgentDocCreator research-agent core.

This file gives a shallow embedding of the repository's agent orchestration
loop (backend/agents/research_agent.py), the model-adapter retry policy
(backend-qwen/llm/oai.py) and the source-extraction / message-conversion
helpers (backend-qwen/api/research.py, backend-qwen/api/models.py), and
proves or refutes the frozen specification claims about them.

Python strings are modelled as Lean String values; the handful of Python
string primitives the code uses (find, the in operator, slicing, strip) are
implemented over List Char below, mirroring CPython semantics for
non-negative indices and ASCII whitespace.
-/

/-- A single-character string holding an apostrophe (used in messages the
Python code builds with f-strings). -/
def squoteC : Char := Char.ofNat 39

def squote : String := squoteC.toString

/-- ASCII whitespace, as matched by Python str.strip and the regex class \s
(space, tab, newline, carriage return, vertical tab, form feed). -/
def pyIsSpace (c : Char) : Bool :=
  c = ' ' || c = Char.ofNat 9 || c = Char.ofNat 10 || c = Char.ofNat 13 ||
  c = Char.ofNat 11 || c = Char.ofNat 12

/-- Python s.find(pat): the index of the first occurrence of pat in s, as an
Option (Python returns -1 when absent; every use in the sources is guarded
by an in test, so the none case is never consumed). -/
def findSub (pat : List Char) : List Char → Option Nat
  | [] => if pat.isPrefixOf ([] : List Char) then some 0 else none
  | c :: t =>
    if pat.isPrefixOf (c :: t) then some 0
    else (findSub pat t).map (· + 1)

/-- Python pat in s. -/
def pyContains (s pat : String) : Bool :=
  (findSub pat.toList s.toList).isSome

/-- Python s[a:b] for non-negative a, b (empty when b is at most a). -/
def pySlice (cs : List Char) (a b : Nat) : List Char :=
  (cs.drop a).take (b - a)

/-- Python s.strip(): drop whitespace from both ends. -/
def pyStrip (cs : List Char) : List Char :=
  ((cs.dropWhile pyIsSpace).reverse.dropWhile pyIsSpace).reverse

/-! ## The research agent state machine (backend/agents/research_agent.py)

Messages are langchain BaseMessage values; the agent uses SystemMessage,
HumanMessage and AIMessage (tool results are also built as AIMessage with a
tool_call_id).  A tool call is a name, an opaque argument bag and an
optional id. -/

inductive MsgKind
  | system
  | human
  | ai
deriving DecidableEq

structure ToolCall where
  name : String
  arguments : String
  id : Option String := none
deriving DecidableEq

structure Msg where
  kind : MsgKind
  content : String
  tool_calls : List ToolCall := []
  tool_call_id : Option String := none
deriving DecidableEq

/-- ResearchState, the TypedDict owned by one research session. -/
structure ResearchState where
  messages : List Msg
  current_task : String
  tools_used : List String
  iteration_count : Nat
  max_iterations : Nat
  final_answer : Option String
  is_complete : Bool
  session_id : Option String
deriving DecidableEq

/-- The outcome of one invocation of the bound LLM: either an assistant
response message or a raised exception carrying its text. -/
inductive LLMOutcome
  | ok (response : Msg)
  | err (e : String)
deriving DecidableEq

/-- One executed tool either returns a ToolResult (success flag, content,
error text) or raises. -/
inductive ToolExec
  | ret (success : Bool) (content : String) (error : String)
  | raised (e : String)
deriving DecidableEq

/-- get_tool_by_name plus the behaviour of each registered tool on the
argument bag it receives: none models an unregistered tool name. -/
def ToolEnv : Type := String → Option (String → ToolExec)

def answer_open : String := "<answer>"

def answer_close : String := "</answer>"

def iteration_limit_answer : String :=
  "Research completed due to iteration limit. Please review the gathered information."

/-- researcher_initialize: insert a system message at the front if none is
present, then reset tools_used, iteration_count, max_iterations and
is_complete. -/
def researcher_initialize (max_llm_calls : Nat) (system_prompt : String)
    (state : ResearchState) : ResearchState :=
  let messages :=
    if state.messages.any (fun m => m.kind == MsgKind.system) then state.messages
    else { kind := MsgKind.system, content := system_prompt } :: state.messages
  { state with
    messages := messages
    tools_used := []
    iteration_count := 0
    max_iterations := max_llm_calls
    is_complete := false }

/-- researcher_reason: guard on the iteration budget, invoke the LLM
(outcome is the oracle's answer for this call; the transient thinking
prompt only feeds the opaque LLM and is not persisted), append the
response, and detect a final answer between the literal answer delimiters.
An exception from the LLM call is caught and converted into a completed
state. -/
def researcher_reason (max_llm_calls : Nat) (outcome : LLMOutcome)
    (state : ResearchState) : ResearchState :=
  if state.iteration_count ≥ max_llm_calls then
    { state with
      is_complete := true
      final_answer := some iteration_limit_answer }
  else
    match outcome with
    | LLMOutcome.err e =>
      { state with
        is_complete := true
        final_answer := some ("Research failed due to error: " ++ e) }
    | LLMOutcome.ok response =>
      let new_messages := state.messages ++ [response]
      let content := response.content
      if pyContains content answer_open && pyContains content answer_close then
        let cs := content.toList
        let start := (findSub answer_open.toList cs).getD 0 + answer_open.length
        let stop := (findSub answer_close.toList cs).getD 0
        let final_answer :=
          if stop > start then String.mk (pyStrip (pySlice cs start stop)) else content
        { state with
          messages := new_messages
          iteration_count := state.iteration_count + 1
          final_answer := some final_answer
          is_complete := true }
      else
        { state with
          messages := new_messages
          iteration_count := state.iteration_count + 1 }

def tool_not_found_msg (name : String) : String :=
  "Tool " ++ squote ++ name ++ squote ++ " not found"

/-- The message appended for one tool call, together with the names pushed
onto tools_used for it (empty on a not-found or raising call). -/
def exec_tool_call (env : ToolEnv) (tc : ToolCall) : Msg × List String :=
  match env tc.name with
  | none =>
    ({ kind := MsgKind.ai, content := tool_not_found_msg tc.name,
       tool_call_id := tc.id }, [])
  | some exec =>
    match exec tc.arguments with
    | ToolExec.ret success content error =>
      ({ kind := MsgKind.ai,
         content := if success then content else ("Tool error: " ++ error),
         tool_call_id := tc.id }, [tc.name])
    | ToolExec.raised e =>
      ({ kind := MsgKind.ai, content := "Tool execution failed: " ++ e,
         tool_call_id := tc.id }, [])

/-- tool_executor_execute: execute every tool call of the last message when
it is an AIMessage with tool calls, appending one result message per call;
otherwise return the state unchanged. -/
def tool_executor_execute (env : ToolEnv) (state : ResearchState) : ResearchState :=
  match state.messages.getLast? with
  | none => state
  | some last =>
    match last.kind with
    | MsgKind.ai =>
      if last.tool_calls.isEmpty then state
      else
        let results := last.tool_calls.map (exec_tool_call env)
        { state with
          messages := state.messages ++ results.map Prod.fst
          tools_used := state.tools_used ++ (results.map Prod.snd).flatten }
    | _ => state

/-- workflow_controller_decide_next: route to the terminal node when the
state is complete, else to the tool executor when the last message is an
AIMessage carrying tool calls, else back to reasoning. -/
def workflow_controller_decide_next (state : ResearchState) : String :=
  if state.is_complete then "end"
  else
    match state.messages.getLast? with
    | some last =>
      match last.kind with
      | MsgKind.ai =>
        if last.tool_calls.isEmpty then "researcher_reason" else "tool_executor_execute"
      | _ => "researcher_reason"
    | none => "researcher_reason"

/-- The compiled graph after researcher_initialize: repeatedly run a
reasoning step, consult the controller, and either stop, run the tool
executor and loop, or loop directly.  The LLM oracle is indexed by the
number of LLM invocations made so far; fuel bounds the number of loop
turns (langgraph enforces a recursion limit the same way). -/
def run_loop (max_llm_calls : Nat) (llm : Nat → LLMOutcome) (env : ToolEnv) :
    Nat → Nat → ResearchState → ResearchState
  | 0, _, s => s
  | fuel + 1, k, s =>
    let s1 := researcher_reason max_llm_calls (llm k) s
    let next := workflow_controller_decide_next s1
    if next = "end" then s1
    else if next = "tool_executor_execute" then
      run_loop max_llm_calls llm env fuel (k + 1) (tool_executor_execute env s1)
    else
      run_loop max_llm_calls llm env fuel (k + 1) s1

/-- The dict returned by ResearchAgent.research. -/
structure ResearchResult where
  success : Bool
  final_answer : Option String
  messages : List Msg
  tools_used : List String
  iterations : Nat
  is_complete : Bool
  error : Option String
  session_id : Option String
deriving DecidableEq

/-- The initial human message built from the query and custom
instructions. -/
def initial_query_msg (query custom_instructions : String) : Msg :=
  { kind := MsgKind.human,
    content := String.mk (pyStrip (query ++ "\n\n" ++ custom_instructions).toList) }

/-- ResearchAgent.research: build the initial state, run the graph, and
package the final state; the graph invocation in this model is total, so
the success branch is taken. -/
def initial_research_state (max_llm_calls : Nat) (query custom_instructions : String)
    (session_id : Option String) : ResearchState :=
  { messages := [initial_query_msg query custom_instructions]
    current_task := query
    tools_used := []
    iteration_count := 0
    max_iterations := max_llm_calls
    final_answer := none
    is_complete := false
    session_id := session_id }

def ResearchAgent_research (max_llm_calls : Nat) (system_prompt : String)
    (llm : Nat → LLMOutcome) (env : ToolEnv) (fuel : Nat)
    (query custom_instructions : String) (session_id : Option String) : ResearchResult :=
  let final_state :=
    run_loop max_llm_calls llm env fuel 0
      ( researcher_initialize max_llm_calls system_prompt
        (initial_research_state max_llm_calls query custom_instructions session_id))
  { success := true
    final_answer := final_state.final_answer
    messages := final_state.messages
    tools_used := final_state.tools_used
    iterations := final_state.iteration_count
    is_complete := final_state.is_complete
    error := none
    session_id := session_id }

/-! ## The model-adapter retry loop (backend-qwen/llm/oai.py, _chat_stream)

The provider call inside the retry for-loop can succeed, raise
RateLimitError, or raise another OpenAIError; the oracle gives the outcome
of the attempt with each index.  A successful attempt breaks out of the
loop and streaming begins, so only the retry control flow is modelled:
the trace records the result, every back-off sleep performed, and the
number of provider calls issued. -/

inductive ProviderOutcome
  | ok
  | rateLimit
  | apiError
deriving DecidableEq

inductive ChatAttemptResult
  | success (attempt : Nat)
  | serviceError (rate_limited : Bool)
  | loopExhausted
deriving DecidableEq

def MAX_RETRIES : Nat := 5

def INITIAL_DELAY : ℚ := 2

structure RetryTrace where
  result : ChatAttemptResult
  sleeps : List ℚ
  calls : Nat
deriving DecidableEq

/-- The body of the for-loop over attempt in range(MAX_RETRIES): success
breaks; a RateLimitError on the last attempt raises ModelServiceError,
otherwise sleeps INITIAL_DELAY * 2 ^ attempt + jitter and retries; any
other OpenAIError raises ModelServiceError at once.  jitter models
random.uniform(0, 1). -/
def retry_loop (outcome : Nat → ProviderOutcome) (jitter : Nat → ℚ) :
    Nat → Nat → RetryTrace
  | _, 0 => { result := ChatAttemptResult.loopExhausted, sleeps := [], calls := 0 }
  | attempt, fuel + 1 =>
    match outcome attempt with
    | ProviderOutcome.ok =>
      { result := ChatAttemptResult.success attempt, sleeps := [], calls := 1 }
    | ProviderOutcome.apiError =>
      { result := ChatAttemptResult.serviceError false, sleeps := [], calls := 1 }
    | ProviderOutcome.rateLimit =>
      if attempt = MAX_RETRIES - 1 then
        { result := ChatAttemptResult.serviceError true, sleeps := [], calls := 1 }
      else
        let rest := retry_loop outcome jitter (attempt + 1) fuel
        { result := rest.result
          sleeps := (INITIAL_DELAY * 2 ^ attempt + jitter attempt) :: rest.sleeps
          calls := rest.calls + 1 }

/-- TextChatAtOAI._chat_stream's retry phase: the loop runs from attempt 0
with range(MAX_RETRIES). -/
def chat_stream_retry (outcome : Nat → ProviderOutcome) (jitter : Nat → ℚ) : RetryTrace :=
  retry_loop outcome jitter 0 MAX_RETRIES

/-! ## JSON values and parsing (backend-qwen/api/research.py)

extract_sources_from_tool_output first tries json.loads on the tool
output.  The parser below models the stdlib behaviour on the JSON subset
the tool outputs use: strings with the common escapes, integers, true,
false, null, arrays and objects (unicode escapes and floats are rejected;
the inputs the claims speak about contain neither).  json.loads keeps the
last of duplicate object keys. -/

inductive PyJson
  | null
  | bool (b : Bool)
  | num (n : Int)
  | str (s : String)
  | arr (items : List PyJson)
  | obj (fields : List (String × PyJson))

def lbraceC : Char := Char.ofNat 123

def rbraceC : Char := Char.ofNat 125

def backtickC : Char := Char.ofNat 96

def dquoteC : Char := Char.ofNat 34

def backslashC : Char := Char.ofNat 92

/-- JSON insignificant whitespace. -/
def jsonWs (c : Char) : Bool :=
  c = ' ' || c = Char.ofNat 9 || c = Char.ofNat 10 || c = Char.ofNat 13

def jsonUnescape (c : Char) : Option Char :=
  if c = dquoteC then some dquoteC
  else if c = backslashC then some backslashC
  else if c = '/' then some '/'
  else if c = 'n' then some (Char.ofNat 10)
  else if c = 't' then some (Char.ofNat 9)
  else if c = 'r' then some (Char.ofNat 13)
  else if c = 'b' then some (Char.ofNat 8)
  else if c = 'f' then some (Char.ofNat 12)
  else none

/-- Parse the remainder of a JSON string after the opening quote. -/
def parseJsonString : List Char → Option (String × List Char)
  | [] => none
  | c :: rest =>
    if c = dquoteC then some ("", rest)
    else if c = backslashC then
      match rest with
      | [] => none
      | e :: r2 =>
        match jsonUnescape e with
        | none => none
        | some ec => (parseJsonString r2).map (fun p => (ec.toString ++ p.1, p.2))
    else (parseJsonString rest).map (fun p => (c.toString ++ p.1, p.2))

def digitVal (c : Char) : Nat := c.toNat - 48

def digitsToNat (ds : List Char) : Nat :=
  ds.foldl (fun n c => n * 10 + digitVal c) 0

/-- Parse a JSON integer (floats make json.loads return a float; the model
rejects them, which no claim input exercises). -/
def parseJsonNumber (cs : List Char) : Option (PyJson × List Char) :=
  let (neg, cs1) :=
    match cs with
    | '-' :: t => (true, t)
    | _ => (false, cs)
  let ds := cs1.takeWhile Char.isDigit
  if ds.isEmpty then none
  else
    let rest := cs1.drop ds.length
    match rest with
    | '.' :: _ => none
    | 'e' :: _ => none
    | 'E' :: _ => none
    | _ =>
      let n : Int := Int.ofNat (digitsToNat ds)
      some (PyJson.num (if neg then -n else n), rest)

mutual

def parseJsonValue : Nat → List Char → Option (PyJson × List Char)
  | 0, _ => none
  | fuel + 1, cs =>
    match cs.dropWhile jsonWs with
    | [] => none
    | c :: rest =>
      if c = dquoteC then
        (parseJsonString rest).map (fun p => (PyJson.str p.1, p.2))
      else if c = '[' then
        match rest.dropWhile jsonWs with
        | ']' :: r2 => some (PyJson.arr [], r2)
        | _ => parseJsonElems fuel rest []
      else if c = lbraceC then
        match rest.dropWhile jsonWs with
        | r0 :: r2 =>
          if r0 = rbraceC then some (PyJson.obj [], r2)
          else parseJsonFields fuel rest []
        | [] => none
      else if ("true".toList).isPrefixOf (c :: rest) then
        some (PyJson.bool true, (c :: rest).drop 4)
      else if ("false".toList).isPrefixOf (c :: rest) then
        some (PyJson.bool false, (c :: rest).drop 5)
      else if ("null".toList).isPrefixOf (c :: rest) then
        some (PyJson.null, (c :: rest).drop 4)
      else parseJsonNumber (c :: rest)

def parseJsonElems : Nat → List Char → List PyJson → Option (PyJson × List Char)
  | 0, _, _ => none
  | fuel + 1, cs, acc =>
    match parseJsonValue fuel cs with
    | none => none
    | some (v, rest) =>
      match rest.dropWhile jsonWs with
      | ',' :: r2 => parseJsonElems fuel r2 (acc ++ [v])
      | ']' :: r2 => some (PyJson.arr (acc ++ [v]), r2)
      | _ => none

def parseJsonFields : Nat → List Char → List (String × PyJson) →
    Option (PyJson × List Char)
  | 0, _, _ => none
  | fuel + 1, cs, acc =>
    match cs.dropWhile jsonWs with
    | k :: rest =>
      if k = dquoteC then
        match parseJsonString rest with
        | none => none
        | some (key, r2) =>
          match r2.dropWhile jsonWs with
          | ':' :: r3 =>
            match parseJsonValue fuel r3 with
            | none => none
            | some (v, r4) =>
              match r4.dropWhile jsonWs with
              | ',' :: r5 => parseJsonFields fuel r5 (acc ++ [(key, v)])
              | r6 :: r7 =>
                if r6 = rbraceC then some (PyJson.obj (acc ++ [(key, v)]), r7)
                else none
              | [] => none
          | _ => none
      else none
    | [] => none

end

/-- json_loads: parse one value and require only whitespace after it. -/
def json_loads (s : String) : Option PyJson :=
  match parseJsonValue (s.length + 1) s.toList with
  | some (v, rest) => if (rest.dropWhile jsonWs).isEmpty then some v else none
  | none => none

/-- json.loads as a raising operation: a failed parse raises
json.JSONDecodeError, which the inner except clause of
extract_sources_from_tool_output catches. -/
def json_loads_exc (s : String) : Except String PyJson :=
  match json_loads s with
  | some v => Except.ok v
  | none => Except.error "JSONDecodeError"

/-! ## Source extraction (backend-qwen/api/research.py) -/

/-- Python truthiness on JSON values. -/
def py_truthy : PyJson → Bool
  | PyJson.null => false
  | PyJson.bool b => b
  | PyJson.num n => n != 0
  | PyJson.str s => s != ""
  | PyJson.arr l => !l.isEmpty
  | PyJson.obj f => !f.isEmpty

/-- dict.get on a parsed object (json.loads keeps the last duplicate
key). -/
def obj_get (fields : List (String × PyJson)) (k : String) : Option PyJson :=
  ((fields.filter (fun p => p.1 == k)).getLast?).map Prod.snd

/-- Python a or b on two optional values (None and falsy values fall
through). -/
def py_or (a b : Option PyJson) : Option PyJson :=
  match a with
  | some v => if py_truthy v then some v else b
  | none => b

/-- One extracted source record, as the dict appended by
extract_sources_from_tool_output. -/
structure Source where
  url : PyJson
  title : PyJson
  type : String

/-- The JSON branch: one source per record of a parsed list that carries a
truthy url/link and a truthy title/name. -/
def sources_from_json (parsed : PyJson) : List Source :=
  match parsed with
  | PyJson.arr items =>
    items.foldl
      (fun acc item =>
        match item with
        | PyJson.obj fields =>
          match py_or (obj_get fields "url") (obj_get fields "link"),
              py_or (obj_get fields "title") (obj_get fields "name") with
          | some u, some t =>
            if py_truthy u && py_truthy t then
              acc ++ [{ url := u, title := t, type := "search_result" }]
            else acc
          | _, _ => acc
        | _ => acc)
      []
  | _ => []

/-- The character class of the URL regex: everything except whitespace and
the characters < > double-quote braces | backslash caret backtick and
square brackets.  Parentheses are allowed. -/
def url_char_allowed (c : Char) : Bool :=
  !(pyIsSpace c || c = '<' || c = '>' || c = dquoteC || c = lbraceC ||
    c = rbraceC || c = '|' || c = backslashC || c = '^' || c = backtickC ||
    c = '[' || c = ']')

/-- Match the scheme alternative https?:// at the head of the input,
returning the consumed characters and the remainder. -/
def scheme_at (cs : List Char) : Option (List Char × List Char) :=
  if ("https://".toList).isPrefixOf cs then some ("https://".toList, cs.drop 8)
  else if ("http://".toList).isPrefixOf cs then some ("http://".toList, cs.drop 7)
  else none

/-- Match the URL regex at the head of the input: scheme followed by a
non-empty greedy run of allowed characters. -/
def match_url_at (cs : List Char) : Option (List Char) :=
  match scheme_at cs with
  | none => none
  | some (sch, rest) =>
    let body := rest.takeWhile url_char_allowed
    if body.isEmpty then none else some (sch ++ body)

/-- re.findall of the URL pattern: scan left to right, taking
non-overlapping leftmost matches. -/
def findall_urls_aux : Nat → List Char → List (List Char)
  | 0, _ => []
  | _ + 1, [] => []
  | fuel + 1, c :: rest =>
    match match_url_at (c :: rest) with
    | some m => m :: findall_urls_aux fuel ((c :: rest).drop m.length)
    | none => findall_urls_aux fuel rest

def findall_urls (cs : List Char) : List (List Char) :=
  findall_urls_aux cs.length cs

/-- Match the markdown-label pattern at the head of the input: a bracketed
non-empty label, optional whitespace, an opening parenthesis, optional
whitespace, the literal URL, optional whitespace and a closing
parenthesis.  Returns the captured label. -/
def match_label_at (url : List Char) (cs : List Char) : Option (List Char) :=
  match cs with
  | '[' :: rest =>
    let label := rest.takeWhile (fun c => c ≠ ']')
    if label.isEmpty then none
    else
      match rest.drop label.length with
      | ']' :: r2 =>
        match r2.dropWhile pyIsSpace with
        | '(' :: r4 =>
          let r5 := r4.dropWhile pyIsSpace
          if url.isPrefixOf r5 then
            match (r5.drop url.length).dropWhile pyIsSpace with
            | ')' :: _ => some label
            | _ => none
          else none
        | _ => none
      | _ => none
  | _ => none

/-- re.search of the markdown-label pattern: leftmost match of
match_label_at over all start positions. -/
def search_label (url : List Char) : List Char → Option (List Char)
  | [] => none
  | c :: rest =>
    match match_label_at url (c :: rest) with
    | some l => some l
    | none => search_label url rest

/-- Match the domain pattern at the head of the input: scheme, an optional
www. (with regex backtracking when nothing non-slash follows it), then a
non-empty run of non-slash characters, captured. -/
def match_domain_at (cs : List Char) : Option (List Char) :=
  match scheme_at cs with
  | none => none
  | some (_, rest) =>
    let fallback := rest.takeWhile (fun c => c ≠ '/')
    if ("www.".toList).isPrefixOf rest then
      let d := (rest.drop 4).takeWhile (fun c => c ≠ '/')
      if !d.isEmpty then some d
      else if !fallback.isEmpty then some fallback
      else none
    else if !fallback.isEmpty then some fallback
    else none

/-- re.search of the domain pattern. -/
def search_domain : List Char → Option (List Char)
  | [] => none
  | c :: rest =>
    match match_domain_at (c :: rest) with
    | some d => some d
    | none => search_domain rest

/-- The regex branch: one source per URL found, titled by an adjacent
markdown label when the label pattern matches, else by the captured
domain, else by the URL itself. -/
def sources_from_text (cs : List Char) : List Source :=
  (findall_urls cs).foldl
    (fun acc url =>
      let title :=
        match search_label url cs with
        | some label => label
        | none =>
          match search_domain url with
          | some d => d
          | none => url
      acc ++ [{ url := PyJson.str (String.mk url),
                title := PyJson.str (String.mk title), type := "web_link" }])
    []

/-- The body of the outer try block of extract_sources_from_tool_output:
the only raising operation it performs is json.loads, whose decode error
the inner except catches by falling back to the regex branch. -/
def extract_sources_body (tool_output : String) : Except String (List Source) :=
  match json_loads_exc tool_output with
  | Except.ok parsed => Except.ok (sources_from_json parsed)
  | Except.error _ => Except.ok (sources_from_text tool_output.toList)

/-- extract_sources_from_tool_output: empty input short-circuits to the
empty list; the outer except clause returns the sources accumulated before
a raise (none can occur, as proved below). -/
def extract_sources_from_tool_output (tool_output : String) : List Source :=
  if tool_output = "" then []
  else
    match extract_sources_body tool_output with
    | Except.ok sources => sources
    | Except.error _ => []

/-! ## Message conversion (backend-qwen/api/research.py, api/models.py)

qwen-agent messages carry a role among system / user / assistant /
function, content that is either a plain string or a list of content items
(modelled by their text field, the one the conversion reads), and an
optional tool name. -/

inductive QwenRole
  | system
  | user
  | assistant
  | function
deriving DecidableEq

structure ContentItem where
  text : String
deriving DecidableEq

inductive QwenContent
  | str (s : String)
  | items (l : List ContentItem)
deriving DecidableEq

structure QwenMessage where
  role : QwenRole
  content : QwenContent
  name : Option String := none
deriving DecidableEq

/-- MessageType of api/models.py. -/
inductive MessageType
  | system
  | user
  | agent
  | thinking
  | tool
  | document_update
deriving DecidableEq

/-- The API Message fields read or written by the two converters
(the remaining optional fields keep their None defaults throughout). -/
structure ApiMessage where
  id : String
  type : MessageType
  content : String
  agent : Option String := none
  toolName : Option String := none
  result : Option String := none
  role : Option QwenRole := none
  tool_calls : Option (List String) := none
deriving DecidableEq

/-- Flattening of qwen content into the API content string (list items
contribute their text in order). -/
def flatten_content : QwenContent → String
  | QwenContent.str s => s
  | QwenContent.items l => l.foldl (fun acc it => acc ++ it.text) ""

/-- convert_qwen_message_to_api; the id argument stands for the generated
uuid and the session_id argument is accepted and unused, as in the
source. -/
def convert_qwen_message_to_api (qm : QwenMessage) (_session_id : String)
    (fresh_id : String) : ApiMessage :=
  let message_type :=
    match qm.role with
    | QwenRole.system => MessageType.system
    | QwenRole.user => MessageType.user
    | QwenRole.assistant => MessageType.agent
    | QwenRole.function => MessageType.tool
  let content := flatten_content qm.content
  let tool_pair : Option String × Option String :=
    match qm.role, qm.name with
    | QwenRole.function, some n =>
      if n ≠ "" then (some n, some content) else (none, none)
    | _, _ => (none, none)
  { id := fresh_id
    type := message_type
    content := content
    agent := some "qwen-agent"
    toolName := tool_pair.1
    result := tool_pair.2
    role := some qm.role }

/-- convert_api_message_to_qwen; the formatting of a non-empty tool_calls
list into the Tool call: string is opaque here, as the list itself is. -/
def convert_api_message_to_qwen (m : ApiMessage) : QwenMessage :=
  let role :=
    match m.type with
    | MessageType.system => QwenRole.system
    | MessageType.user => QwenRole.user
    | MessageType.agent => QwenRole.assistant
    | MessageType.tool => QwenRole.function
    | _ => QwenRole.user
  let content :=
    match m.tool_calls with
    | some tcs =>
      if !tcs.isEmpty then "Tool call: " ++ String.intercalate ", " tcs
      else m.content
    | none => m.content
  { role := role
    content := QwenContent.str content
    name := match m.type with
      | MessageType.tool => m.toolName
      | _ => none }

/-- Round trip through the external message shape. -/
def qwen_roundtrip (qm : QwenMessage) (session_id fresh_id : String) : QwenMessage :=
  convert_api_message_to_qwen (convert_qwen_message_to_api qm session_id fresh_id)

/-! ## Helper lemmas about the orchestration loop -/

theorem researcher_reason_iteration_le (m : Nat) (o : LLMOutcome) (s : ResearchState)
    (h : s.iteration_count ≤ m) :
    (researcher_reason m o s).iteration_count ≤ m := by
  unfold researcher_reason
  by_cases hge : s.iteration_count ≥ m
  · simp [hge]
    exact h
  · simp only [hge, if_false]
    cases o with
    | err e => simpa using h
    | ok r =>
      simp only
      split
      · simp only
        omega
      · simp only
        omega

theorem researcher_reason_guard_no_increment (m : Nat) (o : LLMOutcome)
    (s : ResearchState) (h : s.iteration_count ≥ m) :
    (researcher_reason m o s).iteration_count = s.iteration_count := by
  simp [researcher_reason, h]

theorem researcher_reason_max_eq (m : Nat) (o : LLMOutcome) (s : ResearchState) :
    (researcher_reason m o s).max_iterations = s.max_iterations := by
  unfold researcher_reason
  split
  · rfl
  · cases o with
    | err e => rfl
    | ok r =>
      simp only
      split <;> rfl

theorem researcher_reason_complete_mono (m : Nat) (o : LLMOutcome) (s : ResearchState)
    (h : s.is_complete = true) :
    (researcher_reason m o s).is_complete = true := by
  unfold researcher_reason
  split
  · rfl
  · cases o with
    | err e => rfl
    | ok r =>
      simp only
      split
      · rfl
      · simpa using h

theorem tool_executor_frame (env : ToolEnv) (s : ResearchState) :
    (tool_executor_execute env s).iteration_count = s.iteration_count ∧
    (tool_executor_execute env s).max_iterations = s.max_iterations ∧
    (tool_executor_execute env s).is_complete = s.is_complete ∧
    (tool_executor_execute env s).final_answer = s.final_answer ∧
    (tool_executor_execute env s).current_task = s.current_task ∧
    (tool_executor_execute env s).session_id = s.session_id := by
  unfold tool_executor_execute
  split
  · exact ⟨rfl, rfl, rfl, rfl, rfl, rfl⟩
  · split
    · split
      · exact ⟨rfl, rfl, rfl, rfl, rfl, rfl⟩
      · exact ⟨rfl, rfl, rfl, rfl, rfl, rfl⟩
    · exact ⟨rfl, rfl, rfl, rfl, rfl, rfl⟩

theorem decide_next_of_complete (s : ResearchState) (h : s.is_complete = true) :
    workflow_controller_decide_next s = "end" := by
  simp [workflow_controller_decide_next, h]

theorem run_loop_iteration_le (m : Nat) (llm : Nat → LLMOutcome) (env : ToolEnv) :
    ∀ fuel k s, s.iteration_count ≤ m →
      (run_loop m llm env fuel k s).iteration_count ≤ m := by
  intro fuel
  induction fuel with
  | zero => intro k s h; simpa [run_loop] using h
  | succ n ih =>
    intro k s h
    have h1 : (researcher_reason m (llm k) s).iteration_count ≤ m :=
      researcher_reason_iteration_le m (llm k) s h
    simp only [run_loop]
    by_cases he : workflow_controller_decide_next (researcher_reason m (llm k) s) = "end"
    · simpa [he] using h1
    · by_cases ht : workflow_controller_decide_next (researcher_reason m (llm k) s)
          = "tool_executor_execute"
      · simp only [he, ht, if_false, if_true]
        exact ih (k + 1) _ (by rw [(tool_executor_frame env _).1]; exact h1)
      · simp only [he, ht, if_false]
        exact ih (k + 1) _ h1

theorem run_loop_max_eq (m : Nat) (llm : Nat → LLMOutcome) (env : ToolEnv) :
    ∀ fuel k s, (run_loop m llm env fuel k s).max_iterations = s.max_iterations := by
  intro fuel
  induction fuel with
  | zero => intro k s; simp [run_loop]
  | succ n ih =>
    intro k s
    simp only [run_loop]
    by_cases he : workflow_controller_decide_next (researcher_reason m (llm k) s) = "end"
    · simp [he, researcher_reason_max_eq]
    · by_cases ht : workflow_controller_decide_next (researcher_reason m (llm k) s)
          = "tool_executor_execute"
      · have hfr := (tool_executor_frame env (researcher_reason m (llm k) s)).2.1
        simp [he, ht, ih, hfr, researcher_reason_max_eq]
      · simp [he, ht, ih, researcher_reason_max_eq]

theorem researcher_initialize_fields (m : Nat) (p : String) (s : ResearchState) :
    ( researcher_initialize m p s).iteration_count = 0 ∧
    ( researcher_initialize m p s).max_iterations = m ∧
    ( researcher_initialize m p s).is_complete = false := by
  unfold researcher_initialize
  exact ⟨rfl, rfl, rfl⟩

/-- Claim C1: starting from the initialized state, iteration_count never
exceeds max_iterations (the final state of a session run satisfies the
bound with max_iterations equal to max_llm_calls, researcher_reason
increments the counter only when the budget guard has not fired and
preserves the bound), and is_complete is one-way: neither researcher_reason
nor tool_executor_execute ever resets it to false, and a complete state is
routed to the terminal node, so the false-to-true transition happens at
most once per session. -/
theorem c1_iteration_bound_and_one_way_completion
    (m fuel : Nat) (p q instr : String) (sid : Option String)
    (llm : Nat → LLMOutcome) (env : ToolEnv) (o : LLMOutcome) (s : ResearchState) :
    (ResearchAgent_research m p llm env fuel q instr sid).iterations ≤ m ∧
    (run_loop m llm env fuel 0
        ( researcher_initialize m p
          (initial_research_state m q instr sid))).max_iterations = m ∧
    (s.iteration_count ≥ m → (researcher_reason m o s).iteration_count = s.iteration_count) ∧
    (s.iteration_count ≤ m → (researcher_reason m o s).iteration_count ≤ m) ∧
    (s.is_complete = true → (researcher_reason m o s).is_complete = true) ∧
    (tool_executor_execute env s).is_complete = s.is_complete ∧
    (s.is_complete = true → workflow_controller_decide_next s = "end") := by
  refine ⟨?_, ?_, ?_, ?_, ?_, ?_, ?_⟩
  · show (run_loop m llm env fuel 0 _).iteration_count ≤ m
    exact run_loop_iteration_le m llm env fuel 0 _
      (by rw [(researcher_initialize_fields m p _).1]; exact Nat.zero_le m)
  · rw [run_loop_max_eq m llm env fuel 0 _, (researcher_initialize_fields m p _).2.1]
  · exact researcher_reason_guard_no_increment m o s
  · exact researcher_reason_iteration_le m o s
  · exact researcher_reason_complete_mono m o s
  · exact (tool_executor_frame env s).2.2.1
  · exact decide_next_of_complete s

/-- A fresh session state used by the concrete counterexamples below. -/
def blank_state : ResearchState :=
  { messages := [], current_task := "task", tools_used := [], iteration_count := 0,
    max_iterations := 5, final_answer := none, is_complete := false,
    session_id := none }

/-- Claim C2 counterexample: when the close delimiter immediately follows
the open delimiter, the content contains both delimiters with the close
after the open, yet researcher_reason returns the entire content as
final_answer instead of the (empty) substring strictly between the
delimiters: the code demands find of the close to land strictly beyond the
open's end. -/
theorem c2_counterexample :
    pyContains "<answer></answer>" answer_open = true ∧
    pyContains "<answer></answer>" answer_close = true ∧
    findSub answer_open.toList "<answer></answer>".toList = some 0 ∧
    findSub answer_close.toList "<answer></answer>".toList = some 8 ∧
    (researcher_reason 5
        (LLMOutcome.ok { kind := MsgKind.ai, content := "<answer></answer>" })
        blank_state).is_complete = true ∧
    (researcher_reason 5
        (LLMOutcome.ok { kind := MsgKind.ai, content := "<answer></answer>" })
        blank_state).final_answer = some "<answer></answer>" ∧
    (researcher_reason 5
        (LLMOutcome.ok { kind := MsgKind.ai, content := "<answer></answer>" })
        blank_state).final_answer ≠ some "" := by
  decide

/-- Claim C2 (amended): when the first occurrence of the close delimiter
begins strictly after the end of the first occurrence of the open
delimiter, the reasoning step completes with final_answer equal to the
substring strictly between the delimiters stripped of surrounding
whitespace, and the controller routes to the terminal node regardless of
any tool calls carried by the response. -/
theorem c2_amended_final_answer_extraction
    (m : Nat) (s : ResearchState) (resp : Msg) (i j : Nat)
    (hmax : s.iteration_count < m)
    (hopen : findSub answer_open.toList resp.content.toList = some i)
    (hclose : findSub answer_close.toList resp.content.toList = some j)
    (hafter : i + answer_open.length < j) :
    (researcher_reason m (LLMOutcome.ok resp) s).is_complete = true ∧
    (researcher_reason m (LLMOutcome.ok resp) s).final_answer =
      some (String.mk (pyStrip (pySlice resp.content.toList (i + answer_open.length) j))) ∧
    workflow_controller_decide_next (researcher_reason m (LLMOutcome.ok resp) s) = "end" := by
  have hle : ¬ (s.iteration_count ≥ m) := by omega
  have hopenD : findSub answer_open.data resp.content.data = some i := hopen
  have hcloseD : findSub answer_close.data resp.content.data = some j := hclose
  have hco : pyContains resp.content answer_open = true := by
    unfold pyContains
    rw [hopen]
    rfl
  have hcc : pyContains resp.content answer_close = true := by
    unfold pyContains
    rw [hclose]
    rfl
  refine ⟨?_, ?_, ?_⟩
  · simp [researcher_reason, hle, hco, hcc]
  · simp [researcher_reason, hle, hco, hcc, hopenD, hcloseD, hafter]
  · apply decide_next_of_complete
    simp [researcher_reason, hle, hco, hcc]

/-- Witness for the amended C2 at a concrete response carrying a tool
call. -/
theorem c2_witness :
    (researcher_reason 1
        (LLMOutcome.ok { kind := MsgKind.ai, content := "<answer> hi </answer>",
                         tool_calls := [{ name := "search", arguments := "a" }] })
        blank_state).final_answer = some "hi" := by
  have h := c2_amended_final_answer_extraction 1 blank_state
      { kind := MsgKind.ai, content := "<answer> hi </answer>",
        tool_calls := [{ name := "search", arguments := "a" }] } 0 12
      (by decide) (by decide) (by decide) (by decide)
  rw [h.2.1]
  decide

/-- Claim C3 counterexample: an exception in the first reasoning step is
caught and converted into a completed state, but ResearchAgent.research
reports success = true, not success = false as the claim states. -/
theorem c3_counterexample :
    (ResearchAgent_research 3 "SYS" (fun _ => LLMOutcome.err "boom")
        (fun _ => none) 9 "q" "" none).success = true ∧
    (ResearchAgent_research 3 "SYS" (fun _ => LLMOutcome.err "boom")
        (fun _ => none) 9 "q" "" none).is_complete = true ∧
    (ResearchAgent_research 3 "SYS" (fun _ => LLMOutcome.err "boom")
        (fun _ => none) 9 "q" "" none).final_answer =
      some "Research failed due to error: boom" := by
  decide

/-- A reasoning step whose LLM call raises (at any call index, from any
state whose budget guard has not fired) leaves a completed state carrying
the failure text, and the loop ends at once. -/
theorem run_loop_err_step (m : Nat) (llm : Nat → LLMOutcome) (env : ToolEnv)
    (n k : Nat) (s : ResearchState) (e : String)
    (hk : llm k = LLMOutcome.err e) (hc : s.iteration_count < m) :
    run_loop m llm env (n + 1) k s =
      { s with is_complete := true,
               final_answer := some ("Research failed due to error: " ++ e) } := by
  have hstep : researcher_reason m (llm k) s =
      { s with is_complete := true,
               final_answer := some ("Research failed due to error: " ++ e) } := by
    rw [hk]
    unfold researcher_reason
    rw [if_neg (by omega)]
  simp only [run_loop, hstep]
  rw [decide_next_of_complete _ rfl]
  simp

/-- Claim C3 (amended): an exception raised during any reasoning step of a
session — from an arbitrary state s reached by the loop, at an arbitrary
LLM call index k, provided the budget guard has not fired so the model
call actually happens — is caught: the step completes the state with
final_answer describing the failure while leaving the log and the counter
untouched, the loop terminates right there with that well-formed state and
never propagates the exception, and research() reports success = true for
every session (success = false is reserved for a failure of the workflow
invocation itself). -/
theorem c3_amended_model_error_is_caught
    (m fuel k : Nat) (p q instr : String) (sid : Option String)
    (llm : Nat → LLMOutcome) (env : ToolEnv) (e : String) (s : ResearchState)
    (hk : llm k = LLMOutcome.err e) (hc : s.iteration_count < m) :
    (researcher_reason m (llm k) s).is_complete = true ∧
    (researcher_reason m (llm k) s).final_answer =
      some ("Research failed due to error: " ++ e) ∧
    (researcher_reason m (llm k) s).messages = s.messages ∧
    (researcher_reason m (llm k) s).iteration_count = s.iteration_count ∧
    run_loop m llm env (fuel + 1) k s = researcher_reason m (llm k) s ∧
    (ResearchAgent_research m p llm env fuel q instr sid).success = true := by
  have hstep : researcher_reason m (llm k) s =
      { s with is_complete := true,
               final_answer := some ("Research failed due to error: " ++ e) } := by
    rw [hk]
    unfold researcher_reason
    rw [if_neg (by omega)]
  refine ⟨?_, ?_, ?_, ?_, ?_, rfl⟩
  · rw [hstep]
  · rw [hstep]
  · rw [hstep]
  · rw [hstep]
  · rw [run_loop_err_step m llm env fuel k s e hk hc, hstep]

/-- Concrete LLM oracle for the C3 witness: the first call succeeds, the
second call raises. -/
def c3_llm_example : Nat → LLMOutcome :=
  fun i =>
    if i = 0 then LLMOutcome.ok { kind := MsgKind.ai, content := "first step" }
    else LLMOutcome.err "boom"

/-- Witness for the amended C3: the exception is raised at the second
reasoning step (call index 1, one iteration already consumed), and the
loop ends right there with the converted state. -/
theorem c3_witness :
    run_loop 3 c3_llm_example (fun _ => none) (3 + 1) 1
        { blank_state with iteration_count := 1 } =
      researcher_reason 3 (c3_llm_example 1)
        { blank_state with iteration_count := 1 } ∧
    (researcher_reason 3 (c3_llm_example 1)
        { blank_state with iteration_count := 1 }).final_answer =
      some ("Research failed due to error: " ++ "boom") := by
  have h := c3_amended_model_error_is_caught 3 3 1 "SYS" "q" "" none
      c3_llm_example (fun _ => none) "boom"
      { blank_state with iteration_count := 1 } rfl (by decide)
  exact ⟨h.2.2.2.2.1, h.2.1⟩

/-- Claim C4 counterexample: a response whose content contains the open
delimiter but no close delimiter does not complete the session; the code
requires both delimiters, so the step appends the message and keeps
reasoning. -/
theorem c4_counterexample :
    pyContains "<answer>hello" answer_open = true ∧
    pyContains "<answer>hello" answer_close = false ∧
    (researcher_reason 5
        (LLMOutcome.ok { kind := MsgKind.ai, content := "<answer>hello" })
        blank_state).is_complete = false ∧
    (researcher_reason 5
        (LLMOutcome.ok { kind := MsgKind.ai, content := "<answer>hello" })
        blank_state).final_answer = none := by
  decide

/-- Claim C4 (amended): a response whose content contains the open
delimiter but not the close delimiter is not treated as a final answer:
the reasoning step appends the response, increments the iteration counter,
and leaves is_complete and final_answer unchanged, so the loop
continues. -/
theorem c4_amended_open_without_close
    (m : Nat) (s : ResearchState) (resp : Msg)
    (hmax : s.iteration_count < m)
    (_hopen : pyContains resp.content answer_open = true)
    (hclose : pyContains resp.content answer_close = false) :
    (researcher_reason m (LLMOutcome.ok resp) s).is_complete = s.is_complete ∧
    (researcher_reason m (LLMOutcome.ok resp) s).final_answer = s.final_answer ∧
    (researcher_reason m (LLMOutcome.ok resp) s).messages = s.messages ++ [resp] ∧
    (researcher_reason m (LLMOutcome.ok resp) s).iteration_count = s.iteration_count + 1 := by
  have hle : ¬ (s.iteration_count ≥ m) := by omega
  simp [researcher_reason, hle, hclose]

/-- Witness for the amended C4. -/
theorem c4_witness :
    (researcher_reason 1
        (LLMOutcome.ok { kind := MsgKind.ai, content := "<answer>hello" })
        blank_state).iteration_count = 1 := by
  have h := c4_amended_open_without_close 1 blank_state
      { kind := MsgKind.ai, content := "<answer>hello" }
      (by decide) (by decide) (by decide)
  simpa using h.2.2.2

theorem findSub_isSome_append (pat a b : List Char) :
    (findSub pat (a ++ (pat ++ b))).isSome = true := by
  induction a with
  | nil =>
    rw [List.nil_append]
    cases hpb : pat ++ b with
    | nil =>
      have hp : pat = [] := by
        cases pat with
        | nil => rfl
        | cons x xs => simp at hpb
      subst hp
      simp [findSub]
    | cons c t =>
      rw [findSub]
      have hpre : pat.isPrefixOf (c :: t) = true := by
        rw [← hpb]
        exact List.isPrefixOf_iff_prefix.mpr (List.prefix_append pat b)
      simp [hpre]
  | cons c a ih =>
    rw [List.cons_append, findSub]
    by_cases hp : pat.isPrefixOf (c :: (a ++ (pat ++ b))) = true
    · simp [hp]
    · simp only [hp, Bool.false_eq_true, if_false]
      cases hfs : findSub pat (a ++ (pat ++ b)) with
      | none => rw [hfs] at ih; simp at ih
      | some v => simp

/-- The not-found message produced by the tool executor mentions the
requested tool name. -/
theorem tool_not_found_msg_contains (name : String) :
    pyContains (tool_not_found_msg name) name = true := by
  unfold pyContains tool_not_found_msg
  have hsplit : ("Tool " ++ squote ++ name ++ squote ++ " not found").toList
      = ("Tool " ++ squote).toList ++ (name.toList ++ (squote ++ " not found").toList) := by
    simp [String.toList, String.data_append]
  rw [hsplit]
  exact findSub_isSome_append name.toList ("Tool " ++ squote).toList
    (squote ++ " not found").toList

/-- Characterization of a dispatch turn: when the last message is an
AIMessage with a non-empty tool-call list, the executor appends one result
message per call and the names of the successfully executed tools. -/
theorem tool_executor_execute_run (env : ToolEnv) (s : ResearchState) (last : Msg)
    (hl : s.messages.getLast? = some last)
    (hk : last.kind = MsgKind.ai)
    (hne : last.tool_calls ≠ []) :
    tool_executor_execute env s =
      { s with
        messages := s.messages ++ (last.tool_calls.map (exec_tool_call env)).map Prod.fst
        tools_used := s.tools_used ++
          ((last.tool_calls.map (exec_tool_call env)).map Prod.snd).flatten } := by
  obtain ⟨kind, content, tcs, tcid⟩ := last
  dsimp only at hk hne ⊢
  subst hk
  have hempty : tcs.isEmpty = false := by
    simpa [List.isEmpty_iff] using hne
  unfold tool_executor_execute
  rw [hl]
  simp [hempty]

/-- Claim C5: every tool call of a dispatch turn is processed
independently: the executor appends exactly one result message per
requested call, in order, so no call aborts its siblings; an unregistered
name yields a failed message that references the name, a raising execution
yields a failed message carrying the error text, and after the dispatch
the workflow proceeds with another reasoning step instead of
terminating. -/
theorem c5_tool_dispatch_isolation
    (env : ToolEnv) (s : ResearchState) (last : Msg)
    (hl : s.messages.getLast? = some last)
    (hk : last.kind = MsgKind.ai)
    (hne : last.tool_calls ≠ [])
    (m fuel k : Nat) (llm : Nat → LLMOutcome) (s0 : ResearchState)
    (tc : ToolCall) (e : String) :
    (tool_executor_execute env s).messages =
      s.messages ++ last.tool_calls.map (fun tc2 => (exec_tool_call env tc2).1) ∧
    (env tc.name = none →
      (exec_tool_call env tc).1.content = tool_not_found_msg tc.name ∧
      pyContains (exec_tool_call env tc).1.content tc.name = true) ∧
    (∀ f, env tc.name = some f → f tc.arguments = ToolExec.raised e →
      (exec_tool_call env tc).1.content = "Tool execution failed: " ++ e) ∧
    (workflow_controller_decide_next (researcher_reason m (llm k) s0)
        = "tool_executor_execute" →
      run_loop m llm env (fuel + 1) k s0 =
        run_loop m llm env fuel (k + 1)
          (tool_executor_execute env (researcher_reason m (llm k) s0))) := by
  refine ⟨?_, ?_, ?_, ?_⟩
  · rw [tool_executor_execute_run env s last hl hk hne]
    simp
  · intro hnone
    constructor
    · simp [exec_tool_call, hnone]
    · have hcontent : (exec_tool_call env tc).1.content = tool_not_found_msg tc.name := by
        simp [exec_tool_call, hnone]
      rw [hcontent]
      exact tool_not_found_msg_contains tc.name
  · intro f hf hraise
    simp [exec_tool_call, hf, hraise]
  · intro hroute
    simp only [run_loop]
    rw [hroute]
    simp

/-- Witness for C5: a turn with one unknown tool and one raising tool
appends both failure messages and keeps the loop alive. -/
theorem c5_witness :
    (tool_executor_execute (fun _ => none)
        { blank_state with
          messages := [{ kind := MsgKind.ai, content := "",
                         tool_calls := [{ name := "nosuch", arguments := "a" }] }] }).messages =
      [{ kind := MsgKind.ai, content := "",
         tool_calls := [{ name := "nosuch", arguments := "a" }] }] ++
      [{ name := "nosuch", arguments := "a" : ToolCall }].map
        (fun tc2 => (exec_tool_call (fun _ => none) tc2).1) := by
  have h := c5_tool_dispatch_isolation (fun _ => none)
      { blank_state with
        messages := [{ kind := MsgKind.ai, content := "",
                       tool_calls := [{ name := "nosuch", arguments := "a" }] }] }
      { kind := MsgKind.ai, content := "",
        tool_calls := [{ name := "nosuch", arguments := "a" }] }
      rfl rfl (by decide) 1 1 0 (fun _ => LLMOutcome.err "x") blank_state
      { name := "nosuch", arguments := "a" } "err"
  exact h.1

/-- Claim C9: tool dispatch is a frame-limited no-op outside its own
fields: when the last message is missing, is not an assistant message, or
carries no tool calls, the state is returned unchanged; and in every case
only the message log and tools_used may change, while iteration_count,
max_iterations, is_complete, final_answer, current_task and session_id are
preserved. -/
theorem c9_tool_dispatch_frame (env : ToolEnv) (s : ResearchState) :
    (s.messages = [] → tool_executor_execute env s = s) ∧
    (∀ last, s.messages.getLast? = some last → last.kind ≠ MsgKind.ai →
        tool_executor_execute env s = s) ∧
    (∀ last, s.messages.getLast? = some last → last.tool_calls = [] →
        tool_executor_execute env s = s) ∧
    (tool_executor_execute env s).iteration_count = s.iteration_count ∧
    (tool_executor_execute env s).max_iterations = s.max_iterations ∧
    (tool_executor_execute env s).is_complete = s.is_complete ∧
    (tool_executor_execute env s).final_answer = s.final_answer ∧
    (tool_executor_execute env s).current_task = s.current_task ∧
    (tool_executor_execute env s).session_id = s.session_id := by
  have hframe := tool_executor_frame env s
  refine ⟨?_, ?_, ?_, hframe.1, hframe.2.1, hframe.2.2.1, hframe.2.2.2.1,
    hframe.2.2.2.2.1, hframe.2.2.2.2.2⟩
  · intro hnil
    unfold tool_executor_execute
    rw [hnil]
    rfl
  · intro last hl hk
    obtain ⟨kind, content, tcs, tcid⟩ := last
    unfold tool_executor_execute
    rw [hl]
    cases kind with
    | ai => exact absurd rfl hk
    | system => rfl
    | human => rfl
  · intro last hl hempty
    obtain ⟨kind, content, tcs, tcid⟩ := last
    dsimp only at hempty
    subst hempty
    unfold tool_executor_execute
    rw [hl]
    cases kind with
    | ai => rfl
    | system => rfl
    | human => rfl

/-- Witness for C9 on a state whose last message is a human message. -/
theorem c9_witness :
    tool_executor_execute (fun _ => none)
      { blank_state with messages := [{ kind := MsgKind.human, content := "hi" }] } =
      { blank_state with messages := [{ kind := MsgKind.human, content := "hi" }] } := by
  have h := c9_tool_dispatch_frame (fun _ => none)
      { blank_state with messages := [{ kind := MsgKind.human, content := "hi" }] }
  exact h.2.1 { kind := MsgKind.human, content := "hi" } rfl (by decide)

/-- Full characterization of the retry loop from any attempt index whose
remaining fuel reaches the attempt ceiling: calls are bounded by the fuel,
every recorded sleep corresponds to a rate-limited attempt and equals the
exponential back-off plus jitter, an all-rate-limited run ends in the
typed service error, and the first non-rate-limit outcome decides the
result immediately. -/
theorem retry_loop_spec (o : Nat → ProviderOutcome) (jit : Nat → ℚ) :
    ∀ fuel attempt, attempt + fuel = MAX_RETRIES →
      (retry_loop o jit attempt fuel).calls ≤ fuel ∧
      (∀ k, k < (retry_loop o jit attempt fuel).sleeps.length →
        o (attempt + k) = ProviderOutcome.rateLimit ∧
        (retry_loop o jit attempt fuel).sleeps.getD k 0 =
          INITIAL_DELAY * 2 ^ (attempt + k) + jit (attempt + k)) ∧
      (0 < fuel →
        (∀ i, attempt ≤ i → i < MAX_RETRIES → o i = ProviderOutcome.rateLimit) →
        (retry_loop o jit attempt fuel).result = ChatAttemptResult.serviceError true) ∧
      (∀ i, attempt ≤ i → i < MAX_RETRIES → o i = ProviderOutcome.apiError →
        (∀ x, attempt ≤ x → x < i → o x = ProviderOutcome.rateLimit) →
        (retry_loop o jit attempt fuel).result = ChatAttemptResult.serviceError false ∧
        (retry_loop o jit attempt fuel).sleeps.length = i - attempt ∧
        (retry_loop o jit attempt fuel).calls = i - attempt + 1) ∧
      (∀ i, attempt ≤ i → i < MAX_RETRIES → o i = ProviderOutcome.ok →
        (∀ x, attempt ≤ x → x < i → o x = ProviderOutcome.rateLimit) →
        (retry_loop o jit attempt fuel).result = ChatAttemptResult.success i ∧
        (retry_loop o jit attempt fuel).sleeps.length = i - attempt ∧
        (retry_loop o jit attempt fuel).calls = i - attempt + 1) := by
  intro fuel
  induction fuel with
  | zero =>
    intro a ha
    have h5 : a + 0 = 5 := ha
    refine ⟨by simp [retry_loop], ?_, ?_, ?_, ?_⟩
    · intro k hk
      simp [retry_loop] at hk
    · intro h0
      omega
    · intro i hai hi5
      have : i < 5 := hi5
      omega
    · intro i hai hi5
      have : i < 5 := hi5
      omega
  | succ f ih =>
    intro a ha
    have h5 : a + (f + 1) = 5 := ha
    simp only [retry_loop]
    cases ho : o a with
    | ok =>
      refine ⟨by simp, ?_, ?_, ?_, ?_⟩
      · intro k hk
        simp at hk
      · intro h0 hall
        have := hall a (Nat.le_refl a) (by omega)
        rw [ho] at this
        cases this
      · intro i hai hi5 hie hx
        rcases Nat.eq_or_lt_of_le hai with heq | hlt
        · rw [← heq, ho] at hie
          cases hie
        · have := hx a (Nat.le_refl a) hlt
          rw [ho] at this
          cases this
      · intro i hai hi5 hie hx
        rcases Nat.eq_or_lt_of_le hai with heq | hlt
        · subst heq
          exact ⟨rfl, by simp, by simp⟩
        · have := hx a (Nat.le_refl a) hlt
          rw [ho] at this
          cases this
    | apiError =>
      refine ⟨by simp, ?_, ?_, ?_, ?_⟩
      · intro k hk
        simp at hk
      · intro h0 hall
        have := hall a (Nat.le_refl a) (by omega)
        rw [ho] at this
        cases this
      · intro i hai hi5 hie hx
        rcases Nat.eq_or_lt_of_le hai with heq | hlt
        · subst heq
          exact ⟨rfl, by simp, by simp⟩
        · have := hx a (Nat.le_refl a) hlt
          rw [ho] at this
          cases this
      · intro i hai hi5 hie hx
        rcases Nat.eq_or_lt_of_le hai with heq | hlt
        · rw [← heq, ho] at hie
          cases hie
        · have := hx a (Nat.le_refl a) hlt
          rw [ho] at this
          cases this
    | rateLimit =>
      by_cases hlast : a = MAX_RETRIES - 1
      · have ha4 : a = 4 := hlast
        subst ha4
        rw [if_pos (show (4 : Nat) = MAX_RETRIES - 1 from rfl)]
        refine ⟨by simp, ?_, ?_, ?_, ?_⟩
        · intro k hk
          simp at hk
        · intro h0 hall
          rfl
        · intro i hai hi5 hie hx
          have hi5n : i < 5 := hi5
          have hia : i = 4 := by omega
          rw [hia, ho] at hie
          cases hie
        · intro i hai hi5 hie hx
          have hi5n : i < 5 := hi5
          have hia : i = 4 := by omega
          rw [hia, ho] at hie
          cases hie
      · have ha4 : a < 4 := by
          have hne : a ≠ 4 := hlast
          omega
        rw [if_neg hlast]
        have hsum2 : (a + 1) + f = 5 := by omega
        have spec := ih (a + 1) hsum2
        refine ⟨?_, ?_, ?_, ?_, ?_⟩
        · simp only [RetryTrace.calls]
          have := spec.1
          omega
        · intro k hk
          cases k with
          | zero =>
            constructor
            · rw [Nat.add_zero]
              exact ho
            · simp
          | succ k2 =>
            simp only [RetryTrace.sleeps, List.length_cons] at hk
            have hk2 : k2 < (retry_loop o jit (a + 1) f).sleeps.length := by omega
            have hrec := spec.2.1 k2 hk2
            have hidx : a + (k2 + 1) = (a + 1) + k2 := by omega
            constructor
            · rw [hidx]
              exact hrec.1
            · simp only [RetryTrace.sleeps, List.getD_cons_succ]
              rw [hidx]
              exact hrec.2
        · intro h0 hall
          have hrec := spec.2.2.1 (by omega)
            (fun i hi1 hi2 => hall i (by omega) hi2)
          simp only [RetryTrace.result]
          exact hrec
        · intro i hai hi5 hie hx
          have hne : i ≠ a := by
            intro heq
            rw [heq, ho] at hie
            cases hie
          have hai2 : a + 1 ≤ i := by omega
          have hrec := spec.2.2.2.1 i hai2 hi5 hie
            (fun x hx1 hx2 => hx x (by omega) hx2)
          refine ⟨hrec.1, ?_, ?_⟩
          · simp only [RetryTrace.sleeps, List.length_cons]
            have := hrec.2.1
            omega
          · simp only [RetryTrace.calls]
            have := hrec.2.2
            omega
        · intro i hai hi5 hie hx
          have hne : i ≠ a := by
            intro heq
            rw [heq, ho] at hie
            cases hie
          have hai2 : a + 1 ≤ i := by omega
          have hrec := spec.2.2.2.2 i hai2 hi5 hie
            (fun x hx1 hx2 => hx x (by omega) hx2)
          refine ⟨hrec.1, ?_, ?_⟩
          · simp only [RetryTrace.sleeps, List.length_cons]
            have := hrec.2.1
            omega
          · simp only [RetryTrace.calls]
            have := hrec.2.2
            omega

/-- Claim C6: the streaming chat call retries only on a rate-limit error,
makes at most five provider calls, sleeps INITIAL_DELAY * 2 ^ attempt plus
a jitter in [0, 1) between rate-limited attempts, raises the typed
ModelServiceError when the final attempt is also rate limited, and raises
the typed ModelServiceError immediately, without any retry sleep, on a
non-rate-limit provider error. -/
theorem c6_chat_stream_retry_policy (o : Nat → ProviderOutcome) (jit : Nat → ℚ)
    (hj : ∀ i, 0 ≤ jit i ∧ jit i < 1) :
    (chat_stream_retry o jit).calls ≤ MAX_RETRIES ∧
    (∀ k, k < (chat_stream_retry o jit).sleeps.length →
      o k = ProviderOutcome.rateLimit ∧
      (chat_stream_retry o jit).sleeps.getD k 0 = INITIAL_DELAY * 2 ^ k + jit k ∧
      INITIAL_DELAY * 2 ^ k ≤ (chat_stream_retry o jit).sleeps.getD k 0 ∧
      (chat_stream_retry o jit).sleeps.getD k 0 < INITIAL_DELAY * 2 ^ k + 1) ∧
    ((∀ i, i < MAX_RETRIES → o i = ProviderOutcome.rateLimit) →
      (chat_stream_retry o jit).result = ChatAttemptResult.serviceError true) ∧
    (∀ i, i < MAX_RETRIES → o i = ProviderOutcome.apiError →
      (∀ x, x < i → o x = ProviderOutcome.rateLimit) →
      (chat_stream_retry o jit).result = ChatAttemptResult.serviceError false ∧
      (chat_stream_retry o jit).sleeps.length = i ∧
      (chat_stream_retry o jit).calls = i + 1) ∧
    (∀ i, i < MAX_RETRIES → o i = ProviderOutcome.ok →
      (∀ x, x < i → o x = ProviderOutcome.rateLimit) →
      (chat_stream_retry o jit).result = ChatAttemptResult.success i ∧
      (chat_stream_retry o jit).sleeps.length = i ∧
      (chat_stream_retry o jit).calls = i + 1) := by
  have spec := retry_loop_spec o jit MAX_RETRIES 0 (by omega)
  unfold chat_stream_retry
  refine ⟨spec.1, ?_, ?_, ?_, ?_⟩
  · intro k hk
    have hrec := spec.2.1 k hk
    rw [Nat.zero_add] at hrec
    obtain ⟨hj0, hj1⟩ := hj k
    refine ⟨hrec.1, hrec.2, ?_, ?_⟩
    · rw [hrec.2]
      linarith
    · rw [hrec.2]
      linarith
  · intro hall
    exact spec.2.2.1 (by decide) (fun i hi1 hi2 => hall i hi2)
  · intro i hi5 hie hx
    have hrec := spec.2.2.2.1 i (Nat.zero_le i) hi5 hie
      (fun x hx1 hx2 => hx x hx2)
    simpa using hrec
  · intro i hi5 hie hx
    have hrec := spec.2.2.2.2 i (Nat.zero_le i) hi5 hie
      (fun x hx1 hx2 => hx x hx2)
    simpa using hrec

/-- Concrete retry oracle for the C6 witness: rate limited twice, then
successful. -/
def c6_outcome_example : Nat → ProviderOutcome :=
  fun i => if i < 2 then ProviderOutcome.rateLimit else ProviderOutcome.ok

def c6_jitter_example : Nat → ℚ := fun _ => 1 / 2

/-- Witness for C6: the call ceiling holds on a run that is rate limited
twice and then succeeds. -/
theorem c6_witness :
    (chat_stream_retry c6_outcome_example c6_jitter_example).calls ≤ MAX_RETRIES := by
  have h := c6_chat_stream_retry_policy c6_outcome_example c6_jitter_example
    (fun i => by constructor <;> norm_num [c6_jitter_example])
  exact h.1

/-- Claim C7: the JSON example and the bare-URL example behave as the
claim states, but the markdown example does not: the URL character class
admits the closing parenthesis, so on input containing the markdown link
the single extracted source has url http://y.com followed by a close
parenthesis and title y.com followed by a close parenthesis (the domain
fallback applied to the over-matched URL), not title Example. -/
theorem c7_source_extraction_examples :
    extract_sources_from_tool_output "[\x7b\"url\":\"http://x.com\",\"title\":\"X\"\x7d]" =
      [{ url := PyJson.str "http://x.com", title := PyJson.str "X",
         type := "search_result" }] ∧
    extract_sources_from_tool_output "Visit http://z.com today" =
      [{ url := PyJson.str "http://z.com", title := PyJson.str "z.com",
         type := "web_link" }] ∧
    extract_sources_from_tool_output "[Example](http://y.com)" =
      [{ url := PyJson.str "http://y.com)", title := PyJson.str "y.com)",
         type := "web_link" }] := by
  refine ⟨rfl, rfl, rfl⟩

/-- The markdown label pairing succeeds exactly when whitespace separates
the URL from the closing parenthesis, keeping the parenthesis out of the
URL match: evidence that the label branch of the code is intended to
produce the title Example for markdown links. -/
theorem c7_markdown_label_with_space :
    extract_sources_from_tool_output "See [Example](http://y.com )!" =
      [{ url := PyJson.str "http://y.com", title := PyJson.str "Example",
         type := "web_link" }] := by
  rfl

/-- Claim C8 counterexample: a message whose content is a list of content
items does not round trip: conversion flattens the list into a plain
string, so the content field differs after the round trip. -/
theorem c8_counterexample :
    (qwen_roundtrip
        { role := QwenRole.user, content := QwenContent.items [{ text := "hello" }] }
        "sid" "mid").content = QwenContent.str "hello" ∧
    (qwen_roundtrip
        { role := QwenRole.user, content := QwenContent.items [{ text := "hello" }] }
        "sid" "mid").content ≠
      QwenContent.items [{ text := "hello" }] := by
  refine ⟨rfl, ?_⟩
  decide

/-- Claim C8 (amended): for every internal message whose content is a
plain string and whose tool name is not the empty string, converting to
the external shape and back preserves the role, the content, and — for a
tool message — the tool name; list content is flattened to the
concatenation of its text fields and does not round trip. -/
theorem c8_amended_roundtrip (qm : QwenMessage) (sid fid : String) (s : String)
    (hc : qm.content = QwenContent.str s)
    (hn : qm.name ≠ some "") :
    (qwen_roundtrip qm sid fid).role = qm.role ∧
    (qwen_roundtrip qm sid fid).content = qm.content ∧
    (qm.role = QwenRole.function → (qwen_roundtrip qm sid fid).name = qm.name) := by
  obtain ⟨role, content, name⟩ := qm
  dsimp only at hc hn ⊢
  subst hc
  cases role with
  | function =>
    cases name with
    | none =>
      simp [qwen_roundtrip, convert_qwen_message_to_api, convert_api_message_to_qwen,
        flatten_content]
    | some n =>
      have hne : n ≠ "" := by
        intro h
        exact hn (by rw [h])
      simp [qwen_roundtrip, convert_qwen_message_to_api, convert_api_message_to_qwen,
        flatten_content, hne]
  | system =>
    simp [qwen_roundtrip, convert_qwen_message_to_api, convert_api_message_to_qwen,
      flatten_content]
  | user =>
    simp [qwen_roundtrip, convert_qwen_message_to_api, convert_api_message_to_qwen,
      flatten_content]
  | assistant =>
    simp [qwen_roundtrip, convert_qwen_message_to_api, convert_api_message_to_qwen,
      flatten_content]

/-- Witness for the amended C8 on a concrete tool message. -/
theorem c8_witness :
    (qwen_roundtrip
        { role := QwenRole.function, content := QwenContent.str "out",
          name := some "search" } "s" "m").name = some "search" := by
  have h := c8_amended_roundtrip
      { role := QwenRole.function, content := QwenContent.str "out",
        name := some "search" } "s" "m" "out" rfl (by decide)
  exact h.2.2 rfl

/-- Claim C10: source extraction is total: the body of the outer handler
never raises (its only raising operation is the JSON parse, whose decode
error is caught by the inner handler and answered with the regex
fallback), so the function always returns a list, and the empty input
yields the empty list. -/
theorem c10_extraction_total (s : String) :
    (∃ l, extract_sources_body s = Except.ok l) ∧
    extract_sources_from_tool_output "" = [] := by
  constructor
  · cases h : json_loads_exc s with
    | ok v =>
      exact ⟨sources_from_json v, by unfold extract_sources_body; rw [h]⟩
    | error e =>
      exact ⟨sources_from_text s.toList, by unfold extract_sources_body; rw [h]⟩
  · rfl

/-- Witness for C10 at a non-JSON input. -/
theorem c10_witness :
    (∃ l, extract_sources_body "not json, no urls" = Except.ok l) ∧
    extract_sources_from_tool_output "" = [] :=
  c10_extraction_total "not json, no urls"

/-- Witness for C1 at a concrete session. -/
theorem c1_witness :
    (ResearchAgent_research 2 "SYS"
        (fun _ => LLMOutcome.ok { kind := MsgKind.ai, content := "thinking" })
        (fun _ => none) 6 "q" "" none).iterations ≤ 2 := by
  exact (c1_iteration_bound_and_one_way_completion 2 6 "SYS" "q" "" none
    (fun _ => LLMOutcome.ok { kind := MsgKind.ai, content := "thinking" })
    (fun _ => none) (LLMOutcome.err "x")
    { messages := [], current_task := "t", tools_used := [], iteration_count := 0,
      max_iterations := 2, final_answer := none, is_complete := false,
      session_id := none }).1
